import Mathlib

/-!
Shallow embedding of the `maxeeem/bridge` repository and proofs about it.

The embedding covers:
* `quantizer.py` — class `DynamicEventMap` (online vector quantization with
  vigilance control, usage-based pruning and pickle persistence);
* `nars_interface.py` — class `ActionMapper` and class `OnaBackend`;
* `opennars_interface.py` — class `OpenNarsBackend`.

Modelling conventions: Python floats are embedded as exact rationals `ℚ`,
Python ints as `ℤ`/`ℕ`, numpy arrays as `List ℚ`, Python dicts as
insertion-ordered association lists, and the effect of writing to the child
process's stdin as an explicit `Option String` result ( `none` = nothing was
written).  A raised-or-returned outcome is embedded as `Except`.
-/

namespace Bridge

/-- Characters matched by the regex classes `[0-9\.]` used in
`nars_interface.py` (the confidence patterns). -/
def isNumChar (c : Char) : Bool := c.isDigit || c = '.'

/-- Squared Euclidean distance between two vectors.

The source (`quantizer.py`, line 58) computes the Euclidean norm
`np.linalg.norm(p - vector)` and compares it with `self.vigilance`
(line 62).  Because the norm is nonnegative and the vigilance of every
reachable quantizer is strictly positive, `norm < vigilance` holds iff
`sqDist < vigilance^2`; the embedding stores the squared quantity so that
every definition stays inside `ℚ` and remains executable.  The theorems
about `quantize` relate the branch condition back to the genuine Euclidean
distance `Real.sqrt sqDist`. -/
def sqDist (p v : List ℚ) : ℚ :=
  (List.zipWith (fun a b => (a - b) * (a - b)) p v).sum

/-- Index of the first occurrence of the minimum of a list, `np.argmin`
(`quantizer.py`, line 59): ties resolve to the lowest index. -/
def argminIdx : List ℚ → ℕ
  | [] => 0
  | [_] => 0
  | x :: y :: xs =>
    let j := argminIdx (y :: xs)
    if x ≤ (y :: xs).getD j 0 then 0 else j + 1

/-- State of `quantizer.py`'s class `DynamicEventMap` (lines 6-15).

The Python constructor also stores `input_dim` (never read by any method)
and `learning_rate` (a constant `0.1`, never reassigned); the former is
omitted as dead state and the latter is the constant `learning_rate`
below. -/
structure DynamicEventMap where
  prototypes : List (List ℚ)
  vigilance : ℚ
  usage_counts : List ℕ
  last_used : List ℤ
  deriving Repr, DecidableEq

/-- `self.learning_rate = 0.1` (`quantizer.py`, line 11); constant. -/
def learning_rate : ℚ := 1 / 10

/-- `DynamicEventMap.__init__` (`quantizer.py`, lines 6-15): empty prototype
list, vigilance `0.5`, empty usage/last-used lists. -/
def DynamicEventMap.init : DynamicEventMap :=
  { prototypes := [], vigilance := 1 / 2, usage_counts := [], last_used := [] }

/-- `DynamicEventMap._get_id` (`quantizer.py`, lines 17-18):
`f"event_{index}"`. -/
def getId (index : ℕ) : String := "event_" ++ toString index

/-- `DynamicEventMap._add_prototype` (`quantizer.py`, lines 77-81): append a
copy of the vector, usage count 1 and the step, returning the new index
`len(self.prototypes) - 1`. -/
def DynamicEventMap.addPrototype (q : DynamicEventMap) (vector : List ℚ)
    (step : ℤ) : DynamicEventMap × ℕ :=
  let q' : DynamicEventMap :=
    { q with
      prototypes := q.prototypes ++ [vector]
      usage_counts := q.usage_counts ++ [1]
      last_used := q.last_used ++ [step] }
  (q', q'.prototypes.length - 1)

/-- `DynamicEventMap.quantize` (`quantizer.py`, lines 47-75).  The branch
condition `min_dist < self.vigilance` of line 62 is embedded as
`sqDist < vigilance^2` (see `sqDist`). -/
def DynamicEventMap.quantize (q : DynamicEventMap) (vector : List ℚ)
    (current_step : ℤ) : DynamicEventMap × String :=
  if q.prototypes.length = 0 then
    let (q', idx) := q.addPrototype vector current_step
    (q', getId idx)
  else
    let distances := q.prototypes.map (fun p => sqDist p vector)
    let min_dist_idx := argminIdx distances
    let min_dist := distances.getD min_dist_idx 0
    if min_dist < q.vigilance ^ 2 then
      let p := q.prototypes.getD min_dist_idx []
      ({ q with
          prototypes := q.prototypes.set min_dist_idx
            (List.zipWith (fun pj vj => pj + learning_rate * (vj - pj)) p vector)
          usage_counts := q.usage_counts.set min_dist_idx
            (q.usage_counts.getD min_dist_idx 0 + 1)
          last_used := q.last_used.set min_dist_idx current_step },
        getId min_dist_idx)
    else
      let (q', idx) := q.addPrototype vector current_step
      (q', getId idx)

/-- `DynamicEventMap.prune` (`quantizer.py`, lines 83-103): collect the
indices whose age `current_step - last` is within `age_threshold`; if
anything was removed, rebuild all three parallel lists from the kept
indices (otherwise leave the object untouched). -/
def DynamicEventMap.prune (q : DynamicEventMap) (current_step : ℤ)
    (age_threshold : ℤ) : DynamicEventMap :=
  let keep_indices := (List.range q.last_used.length).filter
    (fun i => current_step - q.last_used.getD i 0 ≤ age_threshold)
  let removed_count := q.last_used.length - keep_indices.length
  if 0 < removed_count then
    { q with
      prototypes := keep_indices.map (fun i => q.prototypes.getD i [])
      usage_counts := keep_indices.map (fun i => q.usage_counts.getD i 0)
      last_used := keep_indices.map (fun i => q.last_used.getD i 0) }
  else q

/-- `DynamicEventMap.adjust_vigilance` (`quantizer.py`, lines 105-122): when
`error > 0`, `vigilance := max(0.01, vigilance - 0.05 * error)`; otherwise a
no-op. -/
def DynamicEventMap.adjust_vigilance (q : DynamicEventMap) (error : ℚ) :
    DynamicEventMap :=
  if 0 < error then
    { q with vigilance := max (1 / 100) (q.vigilance - (1 / 20) * error) }
  else q

/-- The record pickled by `DynamicEventMap.save` (`quantizer.py`,
lines 20-30).  Fields are `Option`s because `load` reads each key with
`data.get(key, default)`. -/
structure SavedData where
  prototypes : Option (List (List ℚ))
  vigilance : Option ℚ
  usage_counts : Option (List ℕ)
  last_used : Option (List ℤ)
  deriving Repr, DecidableEq

/-- `DynamicEventMap.save` (`quantizer.py`, lines 20-30): serialize all four
state components. -/
def DynamicEventMap.save (q : DynamicEventMap) : SavedData :=
  { prototypes := some q.prototypes
    vigilance := some q.vigilance
    usage_counts := some q.usage_counts
    last_used := some q.last_used }

/-- Body of `DynamicEventMap.load` after the file was read (`quantizer.py`,
lines 38-44): each field comes from `data.get(...)` with the defaults of the
source, where the list defaults are sized from the freshly assigned
prototype list. -/
def DynamicEventMap.loadData (_q : DynamicEventMap) (data : SavedData) :
    DynamicEventMap :=
  let protos := data.prototypes.getD []
  { prototypes := protos
    vigilance := data.vigilance.getD (1 / 2)
    usage_counts := data.usage_counts.getD (List.replicate protos.length 0)
    last_used := data.last_used.getD (List.replicate protos.length 0) }

/-- `DynamicEventMap.load` (`quantizer.py`, lines 32-45) including the
file-existence check of line 34: `file = none` models
`os.path.exists(filename)` being false, in which case the method prints a
warning and plainly returns, leaving the object untouched; an uncaught
Python exception would be an `Except.error`, and no path of the modelled
code produces one. -/
def DynamicEventMap.load (q : DynamicEventMap) (file : Option SavedData) :
    Except String DynamicEventMap :=
  match file with
  | none => Except.ok q
  | some data => Except.ok (q.loadData data)

/-- Run a whole sequence of `quantize` calls, collecting the returned
symbols (used to express that a reloaded quantizer behaves identically on
all future inputs). -/
def runQuantize : DynamicEventMap → List (List ℚ × ℤ) → List String
  | _, [] => []
  | q, (v, t) :: rest =>
    let r := q.quantize v t
    r.2 :: runQuantize r.1 rest

/-- The implicit well-formedness invariant of C10: the three parallel lists
have equal length. -/
def DynamicEventMap.WF (q : DynamicEventMap) : Prop :=
  q.prototypes.length = q.last_used.length
    ∧ q.usage_counts.length = q.last_used.length

/-! Python string primitives, implemented by structural recursion over
`List Char` so that every definition evaluates inside the kernel (the
corresponding `String`/`Substring` library functions are well-founded and
do not reduce).  Each helper mirrors the Python string method named in its
doc comment. -/

/-- Python `str.strip()` (no argument): remove leading and trailing
whitespace. -/
def pyStrip (s : String) : String :=
  String.mk
    (((s.data.dropWhile Char.isWhitespace).reverse.dropWhile
      Char.isWhitespace).reverse)

/-- Python `substring in s`. -/
def pyContainsAux (sub : List Char) : List Char → Bool
  | [] => sub.isEmpty
  | l@(_ :: rest) => sub.isPrefixOf l || pyContainsAux sub rest

/-- Python `substring in s`. -/
def pyContains (s sub : String) : Bool :=
  pyContainsAux sub.data s.data

/-- Python `s.startswith(p)`. -/
def pyStartsWith (s p : String) : Bool :=
  p.data.isPrefixOf s.data

/-- Python `s.endswith(p)`. -/
def pyEndsWith (s p : String) : Bool :=
  p.data.isSuffixOf s.data

/-- Python slicing `s[n:]` (character count). -/
def pyDrop (s : String) (n : ℕ) : String :=
  String.mk (s.data.drop n)

/-- Python `s.replace(c, "")` for a one-character pattern `c` — the only
`replace` shape the sources use (stripping `<` and `>`). -/
def pyRemoveChar (c : Char) (s : String) : String :=
  String.mk (s.data.filter (fun x => x ≠ c))

/-- Fuel-indexed worker for Python `s.split(sep)` with a nonempty
separator. -/
def pySplitAux (sep : List Char) : ℕ → List Char → List Char →
    List (List Char)
  | 0, _, acc => [acc.reverse]
  | _ + 1, [], acc => [acc.reverse]
  | fuel + 1, l@(c :: rest), acc =>
    if sep.isPrefixOf l then
      acc.reverse :: pySplitAux sep fuel (l.drop sep.length) []
    else pySplitAux sep fuel rest (c :: acc)

/-- Python `s.split(sep)` for a nonempty separator: non-overlapping,
left-to-right, keeping empty pieces. -/
def pySplit (s sep : String) : List String :=
  (pySplitAux sep.data (s.data.length + 1) s.data []).map String.mk

/-- Worker for Python `s.split()` (no argument). -/
def pySplitWsAux : List Char → List Char → List (List Char)
  | [], acc => if acc.isEmpty then [] else [acc.reverse]
  | c :: rest, acc =>
    if c.isWhitespace then
      if acc.isEmpty then pySplitWsAux rest []
      else acc.reverse :: pySplitWsAux rest []
    else pySplitWsAux rest (c :: acc)

/-- Python `s.split()` (no argument): split on whitespace runs, dropping
empty pieces. -/
def pySplitWs (s : String) : List String :=
  (pySplitWsAux s.data []).map String.mk

/-- `ActionMapper.__init__`'s forward table (`nars_interface.py`,
lines 14-26), as an insertion-ordered association list mirroring the Python
dict literal. -/
def ActionMapper.mapping : List (String × ℤ) :=
  [("^left", 0), ("^right", 1), ("^forward", 2), ("^move", 2), ("^pick", 3),
   ("^drop", 4), ("^toggle", 5), ("^activate", 5), ("^say", 6), ("^wait", 7)]

/-- `ActionMapper.__init__`'s derived reverse table (`nars_interface.py`,
lines 27-31): iterate the forward table in insertion order and keep only the
first name seen for each id. -/
def ActionMapper.id_to_op : List (ℤ × String) :=
  ActionMapper.mapping.foldl
    (fun acc p => if acc.any (fun q => q.1 = p.2) then acc else acc ++ [(p.2, p.1)])
    []

/-- `ActionMapper.map_action` (`nars_interface.py`, lines 33-40): strip the
incoming name, look it up, default `-1`. -/
def ActionMapper.map_action (nars_op : String) : ℤ :=
  ((ActionMapper.mapping.find? (fun p => p.1 = pyStrip nars_op)).map
    (fun p => p.2)).getD (-1)

/-- `ActionMapper.get_op_for_id` (`nars_interface.py`, lines 42-44): reverse
lookup, default `"^wait"`. -/
def ActionMapper.get_op_for_id (action_id : ℤ) : String :=
  ((ActionMapper.id_to_op.find? (fun p => p.1 = action_id)).map
    (fun p => p.2)).getD "^wait"

/-! Embeddings of the regex searches of the two `_monitor_output` loops.
Each models Python `re.search` for the one fixed pattern named in its doc
comment: scan left to right, and at the first position where the whole
pattern matches return the capture group; greedy `+`/`.*` pieces take the
maximal run (for the character-class pieces no backtracking can ever help,
because the character required after the class is never itself in the
class). -/

/-- Characters of the regex class `[a-zA-Z0-9_]`. -/
def isWordChar (c : Char) : Bool := c.isAlphanum || c = '_'

/-- `re.search(r"\^([a-zA-Z0-9_]+)", s)`: the word run after the first `^`
that is followed by at least one word character. -/
def searchCaretWord : List Char → Option (List Char)
  | [] => none
  | c :: rest =>
    if c = '^' ∧ rest.takeWhile isWordChar ≠ [] then
      some (rest.takeWhile isWordChar)
    else searchCaretWord rest

/-- `re.search(r";([0-9\.]+)%", s)`: the digits-and-dots run between the
first `;` and a `%` that immediately follows the run. -/
def searchSemiPct : List Char → Option (List Char)
  | [] => none
  | c :: rest =>
    if c = ';' then
      let run := rest.takeWhile isNumChar
      if run ≠ [] ∧ (rest.drop run.length).headD ' ' = '%' then some run
      else searchSemiPct rest
    else searchSemiPct rest

/-- `re.search(lit ++ "([class]+)", s)` for a literal prefix followed by a
nonempty run of class characters; used for `confidence=([0-9\.]+)`. -/
def searchAfterLit (lit : List Char) (cls : Char → Bool) :
    List Char → Option (List Char)
  | [] => none
  | l@(_ :: rest) =>
    if lit.isPrefixOf l then
      let run := (l.drop lit.length).takeWhile cls
      if run ≠ [] then some run else searchAfterLit lit cls rest
    else searchAfterLit lit cls rest

/-- `re.search(r"decision expectation=([-0-9\.]+) implication: (.*)", s)`:
both capture groups. -/
def searchDecisionExp : List Char → Option (List Char × List Char)
  | [] => none
  | l@(_ :: rest) =>
    if ("decision expectation=".data).isPrefixOf l then
      let tail := l.drop "decision expectation=".data.length
      let run := tail.takeWhile (fun c => isNumChar c || c = '-')
      if run ≠ [] ∧ (" implication: ".data).isPrefixOf (tail.drop run.length)
      then some (run, (tail.drop run.length).drop " implication: ".data.length)
      else searchDecisionExp rest
    else searchDecisionExp rest

/-- Index of the last occurrence of a character. -/
def lastIndexOf (c : Char) (l : List Char) : Option ℕ :=
  match l.reverse.findIdx? (fun x => x = c) with
  | some k => some (l.length - 1 - k)
  | none => none

/-- `re.search(r"<(.+)>", s)`: from the first `<` that has a `>` at least
two characters later, the (greedy) group extends to the last `>`. -/
def searchAngle : List Char → Option (List Char)
  | [] => none
  | c :: rest =>
    if c = '<' then
      match lastIndexOf '>' rest with
      | some j => if 1 ≤ j then some (rest.take j) else searchAngle rest
      | none => none
    else searchAngle rest

/-- Numeric value of a digit run. -/
def digitsToNat (l : List Char) : ℕ :=
  l.foldl (fun acc c => acc * 10 + (c.toNat - Char.toNat '0')) 0

/-- Python `float(str)` on unsigned strings drawn from the characters
`[0-9.]`: at most one dot and at least one digit, else `ValueError`
(`none`).  (Exponents, infinities etc. cannot occur in the captured
groups.) -/
def parseUnsignedFloat (l : List Char) : Option ℚ :=
  let intp := l.takeWhile Char.isDigit
  match l.drop intp.length with
  | [] => if intp.isEmpty then none else some (digitsToNat intp)
  | '.' :: frac =>
    if frac.all Char.isDigit ∧ (intp ≠ [] ∨ frac ≠ []) then
      some ((digitsToNat intp : ℚ) + (digitsToNat frac : ℚ) / (10 : ℚ) ^ frac.length)
    else none
  | _ => none

/-- Python `float(str)` on strings drawn from `[-0-9.]`: an optional single
leading minus sign, then an unsigned float. -/
def parsePyFloat : List Char → Option ℚ
  | '-' :: rest => (parseUnsignedFloat rest).map (fun x => -x)
  | l => parseUnsignedFloat l

/-- The signal-and-liveness state of `OnaBackend` (`nars_interface.py`,
lines 67-111).  `process` models `self.process is not None`; the log file,
the monitor thread object and the mapper (a constant table) are omitted. -/
structure OnaState where
  running : Bool
  process : Bool
  last_action : Option String
  last_error : ℚ
  last_input_term : String
  anticipations : List (ℚ × String)
  last_derived : List String
  deriving Repr, DecidableEq

/-- Outcome of the `subprocess.Popen` call in a backend constructor:
either the process launched, or it raised `FileNotFoundError` (missing
executable — the exception type the constructors catch), or it raised some
other exception (caught only by `OpenNarsBackend`). -/
inductive LaunchResult where
  | ok
  | fileNotFound
  deriving Repr, DecidableEq

/-- `OnaBackend.__init__` (`nars_interface.py`, lines 68-111): on a
`FileNotFoundError` from `Popen` (nonexistent executable) the constructor
catches it, sets `process = None` and `running = False` and returns
normally.  In both branches the four signal slots are initialised empty
*after* the `try` block, so the `send_input("*volume=100")` performed on a
successful launch leaves no trace in `last_input_term`. -/
def OnaState.init : LaunchResult → OnaState
  | .ok =>
    { running := true, process := true, last_action := none, last_error := 0,
      last_input_term := "", anticipations := [], last_derived := [] }
  | .fileNotFound =>
    { running := false, process := false, last_action := none, last_error := 0,
      last_input_term := "", anticipations := [], last_derived := [] }

/-- `OnaBackend.send_input` (`nars_interface.py`, lines 141-160): no-op when
not running; otherwise remember the cleaned first token as
`last_input_term`, append a newline if missing and write (the written line
is the `Option String` of the result; `writeOk = false` models an `OSError`
from the pipe, which marks the handle not running). -/
def OnaState.send_input (s : OnaState) (narsese : String) (writeOk : Bool) :
    OnaState × Option String :=
  if s.running then
    let clean :=
      (pySplit (pyRemoveChar '>' (pyRemoveChar '<' (pyStrip narsese))) " ").headD ""
    let s1 := if 0 < clean.length then { s with last_input_term := clean } else s
    let out := if pyEndsWith narsese "\n" then narsese else narsese ++ "\n"
    if writeOk then (s1, some out) else ({ s1 with running := false }, none)
  else (s, none)

/-- `OnaBackend.send_action` (`nars_interface.py`, lines 133-139): resolve
the id and send the goal sentence. -/
def OnaState.send_action (s : OnaState) (action_id : ℤ) (writeOk : Bool) :
    OnaState × Option String :=
  s.send_input
    ("<(*,\x7bSELF\x7d) --> " ++ ActionMapper.get_op_for_id action_id ++ ">! :|:")
    writeOk

/-- `OnaBackend.get_action` (`nars_interface.py`, lines 162-165). -/
def OnaState.get_action (s : OnaState) : Option String × OnaState :=
  (s.last_action, { s with last_action := none })

/-- `OnaBackend.get_anticipations` (`nars_interface.py`, lines 167-171). -/
def OnaState.get_anticipations (s : OnaState) : List (ℚ × String) × OnaState :=
  (s.anticipations, { s with anticipations := [] })

/-- `OnaBackend.get_derived` (`nars_interface.py`, lines 173-177). -/
def OnaState.get_derived (s : OnaState) : List String × OnaState :=
  (s.last_derived, { s with last_derived := [] })

/-- `OnaBackend.get_prediction_error` (`nars_interface.py`,
lines 179-182). -/
def OnaState.get_prediction_error (s : OnaState) : ℚ × OnaState :=
  (s.last_error, { s with last_error := 0 })

/-- `OnaBackend.stop` (`nars_interface.py`, lines 113-131): clears the
running flag; terminating the process, closing the log and joining the
thread have no image in the signal state. -/
def OnaState.stop (s : OnaState) : OnaState := { s with running := false }

/-- `OnaBackend._monitor_output`, detection 1 (`nars_interface.py`,
lines 209-216): an `" executed with args"` line whose part before the
marker starts with `^` becomes the last action. -/
def onaExecutedWith (s : OnaState) (line : String) : OnaState :=
  if pyContains line " executed with args" then
    let op_candidate := pyStrip ((pySplit line " executed with args").headD "")
    if pyStartsWith op_candidate "^" then { s with last_action := some op_candidate }
    else s
  else s

/-- `OnaBackend._monitor_output`, detection 1.5 (`nars_interface.py`,
lines 218-225): a `"Selected: "` line containing a caret word becomes the
last action. -/
def onaSelected (s : OnaState) (line : String) : OnaState :=
  if pyContains line "Selected: " then
    if pyContains line "^" then
      match searchCaretWord line.data with
      | some w => { s with last_action := some ("^" ++ String.mk w) }
      | none => s
    else s
  else s

/-- `OnaBackend._monitor_output`, detections on the rest of the line body
(`nars_interface.py`, lines 257-289): anticipation lines (appended to the
anticipation queue, skipped on an inner `float` failure), `"Anticipating:"`
lines, and `"Derived"` lines — with the legacy `Derived:` angle-bracket
capture, the relevance `continue`, and the `confidence=` surprise check
raising the error accumulator to `max(error, 0.3)` for confidence above
`0.1`. -/
def onaTail (s : OnaState) (line : String) : OnaState :=
  let s4 :=
    if pyContains line "decision expectation=" then
      match searchDecisionExp line.data with
      | some g =>
        match parsePyFloat g.1 with
        | none => s
        | some score =>
          { s with anticipations :=
              s.anticipations ++ [(score, pyStrip (String.mk g.2))] }
      | none => s
    else s
  let s5 :=
    if pyContains line "Anticipating:" then
      { s4 with anticipations := s4.anticipations ++ [(1 / 2, pyStrip line)] }
    else s4
  if pyContains line "Derived" then
    let s6 :=
      if pyStartsWith line "Derived:" then
        match searchAngle line.data with
        | some g => { s5 with last_derived := s5.last_derived ++ [String.mk g] }
        | none => s5
      else s5
    if s6.last_input_term ≠ "" ∧ ¬ pyContains line s6.last_input_term then s6
    else
      match searchAfterLit "confidence=".data isNumChar line.data with
      | some g =>
        match parsePyFloat g with
        | none => s6
        | some conf =>
          if 1 / 10 < conf then
            { s6 with last_error := max s6.last_error (3 / 10) }
          else s6
      | none => s6
  else s5

/-- `OnaBackend._monitor_output`, the `OUT:` branch (`nars_interface.py`,
lines 228-255) and fall-through to `onaTail`: capture a caret operation as
the last action, then parse the `;conf%` confidence — a malformed number
raises `ValueError`, which the loop's `except ValueError: continue`
turns into abandoning the rest of this line (so neither the derived
append nor the later detections run) — raise the error accumulator to
`max(error, 0.3)` for confidence above `0.3`, and append the content to
the derived queue. -/
def onaOut (s : OnaState) (line : String) : OnaState :=
  if pyStartsWith line "OUT:" then
    let content := pyStrip (pyDrop line 4)
    let s3 :=
      match searchCaretWord content.data with
      | some w => { s with last_action := some ("^" ++ String.mk w) }
      | none => s
    match searchSemiPct content.data with
    | some g =>
      match parsePyFloat g with
      | none => s3
      | some conf =>
        let s3b :=
          if 3 / 10 < conf then { s3 with last_error := max s3.last_error (3 / 10) }
          else s3
        onaTail { s3b with last_derived := s3b.last_derived ++ [content] } line
    | none => onaTail { s3 with last_derived := s3.last_derived ++ [content] } line
  else onaTail s line

/-- One iteration of `OnaBackend._monitor_output`'s read loop
(`nars_interface.py`, lines 191-289) on one line already delivered by
`readline`: strip it, skip it when empty (logging has no image in the
state), then run the detections in source order. -/
def onaProcessLine (s : OnaState) (line0 : String) : OnaState :=
  let line := pyStrip line0
  if line = "" then s
  else onaOut (onaSelected (onaExecutedWith s line) line) line

/-- The operations a caller (or the background reader) can perform on an
`OnaBackend` handle, for stating state invariants. -/
inductive OnaOp where
  | procLine (line : String)
  | sendInput (narsese : String) (writeOk : Bool)
  | sendAction (action_id : ℤ) (writeOk : Bool)
  | getAction
  | getDerived
  | getAnticipations
  | getPredictionError
  | stop
  deriving Repr, DecidableEq

/-- Dispatch an `OnaOp` to the corresponding state transformer. -/
def OnaState.step (s : OnaState) : OnaOp → OnaState
  | .procLine line => onaProcessLine s line
  | .sendInput n ok => (s.send_input n ok).1
  | .sendAction i ok => (s.send_action i ok).1
  | .getAction => s.get_action.2
  | .getDerived => s.get_derived.2
  | .getAnticipations => s.get_anticipations.2
  | .getPredictionError => s.get_prediction_error.2
  | .stop => s.stop

/-- Python dict assignment `d[k] = v` on an insertion-ordered association
list: update in place if the key exists, else append. -/
def dictInsert (d : List (String × String)) (k v : String) :
    List (String × String) :=
  if d.any (fun p => p.1 = k) then
    d.map (fun p => if p.1 = k then (k, v) else p)
  else d ++ [(k, v)]

/-- Python `d.get(k)` / `k in d` on an association list. -/
def dictGet (d : List (String × String)) (k : String) : Option String :=
  (d.find? (fun p => p.1 = k)).map (fun p => p.2)

/-- Outcome of launching the OpenNARS jar: `OpenNarsBackend.__init__`
catches both `FileNotFoundError` and any other exception with identical
mock-mode handling. -/
inductive OpenLaunch where
  | ok
  | fileNotFound
  | otherError
  deriving Repr, DecidableEq

/-- The signal-and-liveness state of `OpenNarsBackend`
(`opennars_interface.py`, lines 9-70).  `process` models
`self.process is not None`; the log file, the monitor thread and
`debug_output` (which only gates a console print) are omitted. -/
structure OpenNarsState where
  running : Bool
  process : Bool
  last_action : Option String
  last_error : ℚ
  last_derived : List String
  anticipations : List (ℚ × String)
  learned_rules : List (String × String)
  history : List String
  active_anticipation : Option String
  deriving Repr, DecidableEq

/-- `OpenNarsBackend.__init__` (`opennars_interface.py`, lines 10-70): on a
launch failure (either exception) the constructor sets `process = None` and
`running = False` and returns normally.  The signal slots and the rule
heuristics are (re)initialised empty after the `try` block, so the
`send_input("*volume=100")` of a successful launch leaves no trace. -/
def OpenNarsState.init (r : OpenLaunch) : OpenNarsState :=
  { running := r = OpenLaunch.ok, process := r = OpenLaunch.ok,
    last_action := none, last_error := 0, last_derived := [],
    anticipations := [], learned_rules := [], history := [],
    active_anticipation := none }

/-- `OpenNarsBackend.send_input` (`opennars_interface.py`, lines 95-147):
no-op when not running; otherwise record the cleaned first token in the
history, learn the hard-coded `tick → tock` rule once both counts exceed 2,
flag a surprise (`last_error = 0.5`) when a held, nonempty expectation
differs from a nonempty non-action input term (consuming the expectation),
form the next expectation from the learned rules, and write the
newline-terminated line (`writeOk = false` models an `OSError`, which marks
the handle not running). -/
def OpenNarsState.send_input (s : OpenNarsState) (narsese : String)
    (writeOk : Bool) : OpenNarsState × Option String :=
  if s.running then
    let input_term :=
      pyRemoveChar '>' (pyRemoveChar '<' ((pySplit (pyStrip narsese) " ").headD ""))
    let history := s.history ++ [input_term]
    let learned_rules :=
      if 2 < history.count "tick" ∧ 2 < history.count "tock" then
        dictInsert s.learned_rules "tick" "tock"
      else s.learned_rules
    let err_ant : ℚ × Option String :=
      match s.active_anticipation with
      | some expected =>
        if expected ≠ "" then
          (if input_term ≠ "" ∧ input_term ≠ expected ∧
              ¬ pyStartsWith input_term "^" then (1 : ℚ) / 2
           else s.last_error, none)
        else (s.last_error, some expected)
      | none => (s.last_error, none)
    let active_anticipation :=
      match dictGet learned_rules input_term with
      | some nxt => some nxt
      | none => err_ant.2
    let s' := { s with
      history := history, learned_rules := learned_rules,
      last_error := err_ant.1, active_anticipation := active_anticipation }
    let out := if pyEndsWith narsese "\n" then narsese else narsese ++ "\n"
    if writeOk then (s', some out) else ({ s' with running := false }, none)
  else (s, none)

/-- `OpenNarsBackend.send_action` (`opennars_interface.py`, lines 87-93). -/
def OpenNarsState.send_action (s : OpenNarsState) (action_id : ℤ)
    (writeOk : Bool) : OpenNarsState × Option String :=
  s.send_input
    ("<(*,\x7bSELF\x7d) --> " ++ ActionMapper.get_op_for_id action_id ++ ">! :|:")
    writeOk

/-- `OpenNarsBackend.get_action` (`opennars_interface.py`,
lines 149-152). -/
def OpenNarsState.get_action (s : OpenNarsState) :
    Option String × OpenNarsState :=
  (s.last_action, { s with last_action := none })

/-- `OpenNarsBackend.get_derived` (`opennars_interface.py`,
lines 154-157). -/
def OpenNarsState.get_derived (s : OpenNarsState) :
    List String × OpenNarsState :=
  (s.last_derived, { s with last_derived := [] })

/-- `OpenNarsBackend.get_anticipations` (`opennars_interface.py`,
lines 159-162). -/
def OpenNarsState.get_anticipations (s : OpenNarsState) :
    List (ℚ × String) × OpenNarsState :=
  (s.anticipations, { s with anticipations := [] })

/-- `OpenNarsBackend.get_prediction_error` (`opennars_interface.py`,
lines 164-167). -/
def OpenNarsState.get_prediction_error (s : OpenNarsState) :
    ℚ × OpenNarsState :=
  (s.last_error, { s with last_error := 0 })

/-- `OpenNarsBackend.stop` (`opennars_interface.py`, lines 72-85). -/
def OpenNarsState.stop (s : OpenNarsState) : OpenNarsState :=
  { s with running := false }

/-- `OpenNarsBackend._monitor_output`, derived-capture branch
(`opennars_interface.py`, lines 188-212): an `OUT:`/`Answer:` line's
content is appended to the derived queue, and an `=/>` implication inside
it is stored as a learned rule. -/
def openNarsDerived (s : OpenNarsState) (line : String) : OpenNarsState :=
  let content :=
    if pyStartsWith line "OUT:" then pyStrip (pyDrop line 4)
    else if pyStartsWith line "Answer:" then pyStrip (pyDrop line 7)
    else ""
  if content ≠ "" then
    let sA := { s with last_derived := s.last_derived ++ [content] }
    if pyContains content "=/>" then
      let parts := pySplit content "=/>"
      if parts.length = 2 then
        let term_a :=
          pyStrip (pyRemoveChar '>' (pyRemoveChar '<' (parts.headD "")))
        let term_b :=
          pyStrip (pyRemoveChar '>'
            (pyRemoveChar '<' ((pySplit (parts.getD 1 "") ".").headD "")))
        { sA with learned_rules := dictInsert sA.learned_rules term_a term_b }
      else sA
    else sA
  else s

/-- `OpenNarsBackend._monitor_output`, operation branch
(`opennars_interface.py`, lines 214-226): on an `EXE:` line, the first
whitespace token starting with `^` (truncated at `(`) becomes the last
action; with no such token the whole stripped remainder does. -/
def openNarsExe (s : OpenNarsState) (line : String) : OpenNarsState :=
  if pyContains line "EXE:" then
    let parts := pySplit line "EXE:"
    if 1 < parts.length then
      let raw_op := pyStrip (parts.getD 1 "")
      match (pySplitWs raw_op).find? (fun t => pyStartsWith t "^") with
      | some t => { s with last_action := some ((pySplit t "(").headD "") }
      | none => { s with last_action := some raw_op }
    else s
  else s

/-- One iteration of `OpenNarsBackend._monitor_output`'s read loop
(`opennars_interface.py`, lines 169-240) on one delivered line: strip it,
skip it when empty, capture derived content and rules, capture an executed
operation, set `last_error = 0.5` on a `DISCONFIRM` marker, and take an
`ANTICIPATE:` line as the new active expectation. -/
def openNarsProcessLine (s0 : OpenNarsState) (line0 : String) :
    OpenNarsState :=
  let line := pyStrip line0
  if line = "" then s0
  else
    let s2 := openNarsExe (openNarsDerived s0 line) line
    let s3 :=
      if pyContains line "DISCONFIRM" then { s2 with last_error := 1 / 2 }
      else s2
    if pyContains line "ANTICIPATE:" then
      let parts := pySplit line "ANTICIPATE:"
      if 1 < parts.length then
        let expct := pyRemoveChar '>' (pyRemoveChar '<' (pyStrip (parts.getD 1 "")))
        { s3 with active_anticipation := some expct }
      else s3
    else s3

/-- The operations a caller (or the background reader) can perform on an
`OpenNarsBackend` handle. -/
inductive OpenNarsOp where
  | procLine (line : String)
  | sendInput (narsese : String) (writeOk : Bool)
  | sendAction (action_id : ℤ) (writeOk : Bool)
  | getAction
  | getDerived
  | getAnticipations
  | getPredictionError
  | stop
  deriving Repr, DecidableEq

/-- Dispatch an `OpenNarsOp` to the corresponding state transformer. -/
def OpenNarsState.step (s : OpenNarsState) : OpenNarsOp → OpenNarsState
  | .procLine line => openNarsProcessLine s line
  | .sendInput n ok => (s.send_input n ok).1
  | .sendAction i ok => (s.send_action i ok).1
  | .getAction => s.get_action.2
  | .getDerived => s.get_derived.2
  | .getAnticipations => s.get_anticipations.2
  | .getPredictionError => s.get_prediction_error.2
  | .stop => s.stop

theorem argminIdx_lt_length : ∀ (l : List ℚ), l ≠ [] → argminIdx l < l.length
  | [], h => absurd rfl h
  | [_], _ => by simp [argminIdx]
  | x :: y :: xs, _ => by
    have ih := argminIdx_lt_length (y :: xs) (by simp)
    simp only [argminIdx]
    by_cases hc : x ≤ (y :: xs).getD (argminIdx (y :: xs)) 0
    · rw [if_pos hc]; simp
    · rw [if_neg hc]
      simpa [List.length_cons] using Nat.succ_lt_succ ih

theorem argminIdx_min : ∀ (l : List ℚ) (j : ℕ), j < l.length →
    l.getD (argminIdx l) 0 ≤ l.getD j 0
  | [], j, hj => by simp at hj
  | [_], 0, _ => le_refl _
  | [_], j + 1, hj => by simp at hj
  | x :: y :: xs, j, hj => by
    simp only [argminIdx]
    by_cases hc : x ≤ (y :: xs).getD (argminIdx (y :: xs)) 0
    · rw [if_pos hc]
      match j with
      | 0 => simp
      | j + 1 =>
        simp only [List.getD_cons_succ, List.getD_cons_zero]
        exact le_trans hc (argminIdx_min (y :: xs) j (by simpa using hj))
    · rw [if_neg hc]
      match j with
      | 0 =>
        simp only [List.getD_cons_succ, List.getD_cons_zero]
        exact le_of_lt (lt_of_not_le hc)
      | j + 1 =>
        simp only [List.getD_cons_succ]
        exact argminIdx_min (y :: xs) j (by simpa using hj)

theorem argminIdx_first : ∀ (l : List ℚ) (j : ℕ), j < argminIdx l →
    l.getD (argminIdx l) 0 < l.getD j 0
  | [], j, hj => by simp [argminIdx] at hj
  | [_], j, hj => by simp [argminIdx] at hj
  | x :: y :: xs, j, hj => by
    simp only [argminIdx] at hj ⊢
    by_cases hc : x ≤ (y :: xs).getD (argminIdx (y :: xs)) 0
    · rw [if_pos hc] at hj; simp at hj
    · rw [if_neg hc] at hj ⊢
      match j with
      | 0 =>
        simp only [List.getD_cons_succ, List.getD_cons_zero]
        exact lt_of_not_le hc
      | j + 1 =>
        simp only [List.getD_cons_succ]
        exact argminIdx_first (y :: xs) j (by simpa using hj)

theorem sqDist_nonneg : ∀ (p v : List ℚ), 0 ≤ sqDist p v
  | [], _ => by simp [sqDist]
  | _ :: _, [] => by simp [sqDist]
  | a :: p, b :: v => by
    have ih := sqDist_nonneg p v
    have h0 : 0 ≤ (a - b) * (a - b) := mul_self_nonneg _
    simp only [sqDist, List.zipWith_cons_cons, List.sum_cons] at ih ⊢
    linarith

theorem getD_map_of_lt {α β : Type} (f : α → β) (l : List α) (j : ℕ)
    (hj : j < l.length) (d : α) (d' : β) :
    (l.map f).getD j d' = f (l.getD j d) := by
  rw [List.getD_eq_getElem _ _ (by simpa using hj), List.getD_eq_getElem _ _ hj,
    List.getElem_map]

/-- C1: `quantize(v, tick)` creates a first prototype (usage 1, last-active
tick) and returns its symbol when none exist; otherwise it finds the
prototype at minimal Euclidean distance from `v` (ties to the lowest
index), and either — when that minimum is strictly below the vigilance
threshold — moves it by `p + rate * (v - p)`, bumps its usage, stamps its
tick and returns its symbol, or — otherwise — appends one new prototype
equal to a copy of `v` with usage 1 and last-active tick, leaves the
existing prototypes unchanged, and returns the symbol with the new highest
index.  (The vigilance of every reachable quantizer is positive, which the
hypothesis records; Euclidean distances appear as `Real.sqrt` of the
rational squared distance.) -/
theorem quantize_spec (q : Bridge.DynamicEventMap) (v : List ℚ) (t : ℤ)
    (hvig : 0 < q.vigilance) :
    (q.prototypes = [] →
      q.quantize v t =
        ({ prototypes := [v], vigilance := q.vigilance,
           usage_counts := q.usage_counts ++ [1],
           last_used := q.last_used ++ [t] }, Bridge.getId 0))
    ∧ (q.prototypes ≠ [] →
      (Bridge.argminIdx (q.prototypes.map (fun p => Bridge.sqDist p v)) <
          q.prototypes.length)
      ∧ (∀ j, j < q.prototypes.length →
          Real.sqrt
            (Bridge.sqDist
              (q.prototypes.getD
                (Bridge.argminIdx (q.prototypes.map (fun p => Bridge.sqDist p v))) []) v : ℝ) ≤
          Real.sqrt (Bridge.sqDist (q.prototypes.getD j []) v : ℝ))
      ∧ (∀ j, j < Bridge.argminIdx (q.prototypes.map (fun p => Bridge.sqDist p v)) →
          Real.sqrt
            (Bridge.sqDist
              (q.prototypes.getD
                (Bridge.argminIdx (q.prototypes.map (fun p => Bridge.sqDist p v))) []) v : ℝ) <
          Real.sqrt (Bridge.sqDist (q.prototypes.getD j []) v : ℝ))
      ∧ (Real.sqrt
            (Bridge.sqDist
              (q.prototypes.getD
                (Bridge.argminIdx (q.prototypes.map (fun p => Bridge.sqDist p v))) []) v : ℝ) <
            (q.vigilance : ℝ) →
          q.quantize v t =
            ({ q with
                prototypes := q.prototypes.set
                  (Bridge.argminIdx (q.prototypes.map (fun p => Bridge.sqDist p v)))
                  (List.zipWith (fun pj vj => pj + Bridge.learning_rate * (vj - pj))
                    (q.prototypes.getD
                      (Bridge.argminIdx (q.prototypes.map (fun p => Bridge.sqDist p v))) []) v)
                usage_counts := q.usage_counts.set
                  (Bridge.argminIdx (q.prototypes.map (fun p => Bridge.sqDist p v)))
                  (q.usage_counts.getD
                    (Bridge.argminIdx (q.prototypes.map (fun p => Bridge.sqDist p v))) 0 + 1)
                last_used := q.last_used.set
                  (Bridge.argminIdx (q.prototypes.map (fun p => Bridge.sqDist p v))) t },
              Bridge.getId
                (Bridge.argminIdx (q.prototypes.map (fun p => Bridge.sqDist p v)))))
      ∧ ((q.vigilance : ℝ) ≤
            Real.sqrt
              (Bridge.sqDist
                (q.prototypes.getD
                  (Bridge.argminIdx (q.prototypes.map (fun p => Bridge.sqDist p v))) []) v : ℝ) →
          q.quantize v t =
            ({ q with
                prototypes := q.prototypes ++ [v]
                usage_counts := q.usage_counts ++ [1]
                last_used := q.last_used ++ [t] },
              Bridge.getId q.prototypes.length))) := by
  constructor
  · intro hemp
    simp [Bridge.DynamicEventMap.quantize, Bridge.DynamicEventMap.addPrototype, hemp]
  · intro hne
    have hlen0 : q.prototypes.length ≠ 0 := by
      simpa [List.length_eq_zero] using hne
    have hmapne : q.prototypes.map (fun p => Bridge.sqDist p v) ≠ [] := by
      simpa using hne
    set ds := q.prototypes.map (fun p => Bridge.sqDist p v) with hds
    set i := Bridge.argminIdx ds with hi
    have hilt : i < q.prototypes.length := by
      have := Bridge.argminIdx_lt_length ds hmapne
      simpa [hds] using this
    have hdsi : ds.getD i 0 = Bridge.sqDist (q.prototypes.getD i []) v := by
      rw [hds, Bridge.getD_map_of_lt _ _ _ hilt]
    refine ⟨hilt, ?_, ?_, ?_, ?_⟩
    · intro j hj
      have hmin := Bridge.argminIdx_min ds j (by simpa [hds] using hj)
      rw [hdsi, Bridge.getD_map_of_lt _ _ _ hj []] at hmin
      exact Real.sqrt_le_sqrt (by exact_mod_cast hmin)
    · intro j hj
      have hjlt : j < q.prototypes.length := lt_trans hj hilt
      have hfirst := Bridge.argminIdx_first ds j hj
      rw [hdsi, Bridge.getD_map_of_lt _ _ _ hjlt []] at hfirst
      exact Real.sqrt_lt_sqrt
        (by exact_mod_cast Bridge.sqDist_nonneg _ _) (by exact_mod_cast hfirst)
    · intro hmatch
      have hq : Bridge.sqDist (q.prototypes.getD i []) v < q.vigilance ^ 2 := by
        have := (Real.sqrt_lt' (by exact_mod_cast hvig)).mp hmatch
        exact_mod_cast this
      have hcond : ds.getD i 0 < q.vigilance ^ 2 := by rw [hdsi]; exact hq
      simp only [Bridge.DynamicEventMap.quantize]
      rw [if_neg hlen0, ← hds, ← hi, if_pos hcond]
    · intro hnomatch
      have hq : ¬ Bridge.sqDist (q.prototypes.getD i []) v < q.vigilance ^ 2 := by
        intro hlt
        have : Real.sqrt (Bridge.sqDist (q.prototypes.getD i []) v : ℝ) <
            (q.vigilance : ℝ) := by
          rw [Real.sqrt_lt' (by exact_mod_cast hvig)]
          exact_mod_cast hlt
        exact absurd hnomatch (not_le.mpr this)
      have hcond : ¬ ds.getD i 0 < q.vigilance ^ 2 := by rw [hdsi]; exact hq
      simp only [Bridge.DynamicEventMap.quantize]
      rw [if_neg hlen0, ← hds, ← hi, if_neg hcond]
      simp [Bridge.DynamicEventMap.addPrototype]

/-- Witness for C1 at concrete inputs: the first-prototype branch from the
fresh quantizer, the match branch (distance 1/10 < vigilance 1/2), and the
novelty branch (distance 1 ≥ vigilance 1/2). -/
theorem quantize_spec_witness :
    ((0 : ℚ) < Bridge.DynamicEventMap.init.vigilance
      ∧ Bridge.DynamicEventMap.init.quantize [1, 0] 7 =
        ({ prototypes := [[1, 0]], vigilance := 1 / 2, usage_counts := [1],
           last_used := [7] }, Bridge.getId 0))
    ∧ (⟨[[0, 0], [3, 0]], 1 / 2, [1, 1], [0, 0]⟩ :
          Bridge.DynamicEventMap).quantize [1 / 10, 0] 7 =
        (⟨[[1 / 100, 0], [3, 0]], 1 / 2, [2, 1], [7, 0]⟩, Bridge.getId 0)
    ∧ (⟨[[0, 0]], 1 / 2, [1], [0]⟩ : Bridge.DynamicEventMap).quantize [1, 0] 9 =
        (⟨[[0, 0], [1, 0]], 1 / 2, [1, 1], [0, 9]⟩, Bridge.getId 1) := by
  refine ⟨⟨by norm_num [Bridge.DynamicEventMap.init], ?_⟩, ?_, ?_⟩
  · have h := (quantize_spec Bridge.DynamicEventMap.init [1, 0] 7
      (by norm_num [Bridge.DynamicEventMap.init])).1 rfl
    simpa [Bridge.DynamicEventMap.init] using h
  · have h := (quantize_spec ⟨[[0, 0], [3, 0]], 1 / 2, [1, 1], [0, 0]⟩
      [1 / 10, 0] 7 (by norm_num)).2 (by simp)
    have hidx : Bridge.argminIdx
        (([[0, 0], [3, 0]] : List (List ℚ)).map
          (fun p => Bridge.sqDist p [1 / 10, 0])) = 0 := by
      norm_num [Bridge.argminIdx, Bridge.sqDist]
    have hd : Bridge.sqDist
        ((([[0, 0], [3, 0]] : List (List ℚ))).getD 0 []) [1 / 10, 0] = 1 / 100 := by
      norm_num [Bridge.sqDist]
    have hs : Real.sqrt ((1 / 100 : ℚ) : ℝ) < (((1 : ℚ) / 2 : ℚ) : ℝ) := by
      rw [Real.sqrt_lt' (by norm_num)]
      norm_num
    have h4 := h.2.2.2.1 (by rw [hidx, hd]; exact_mod_cast hs)
    rw [hidx] at h4
    norm_num [Bridge.learning_rate] at h4 ⊢
    exact h4
  · have h := (quantize_spec ⟨[[0, 0]], 1 / 2, [1], [0]⟩ [1, 0] 9
      (by norm_num)).2 (by simp)
    have hidx : Bridge.argminIdx
        (([[0, 0]] : List (List ℚ)).map (fun p => Bridge.sqDist p [1, 0])) = 0 := by
      norm_num [Bridge.argminIdx, Bridge.sqDist]
    have hd : Bridge.sqDist ((([[0, 0]] : List (List ℚ))).getD 0 []) [1, 0] = 1 := by
      norm_num [Bridge.sqDist]
    have hs : (((1 : ℚ) / 2 : ℚ) : ℝ) ≤ Real.sqrt ((1 : ℚ) : ℝ) := by
      rw [Rat.cast_one, Real.sqrt_one]
      norm_num
    have h5 := h.2.2.2.2 (by rw [hidx, hd]; exact_mod_cast hs)
    simpa using h5

theorem map_getD_range {α : Type} (l : List α) (d : α) :
    (List.range l.length).map (fun i => l.getD i d) = l := by
  apply List.ext_getElem (by simp)
  intro i h1 h2
  simp [List.getD_eq_getElem l d h2, List.getElem?_eq_getElem h2]

/-- C2: `prune(current_tick, age_threshold)` keeps exactly the prototypes
whose age is within the threshold, compacting survivors in order: the three
parallel lists become the kept-index list mapped through the old lists, the
kept-index list is strictly increasing, an old index survives iff
`current_tick - last_active ≤ age_threshold`, and the vigilance is
untouched. -/
theorem prune_spec (q : Bridge.DynamicEventMap) (t a : ℤ)
    (h1 : q.prototypes.length = q.last_used.length)
    (h2 : q.usage_counts.length = q.last_used.length) :
    (q.prune t a).prototypes =
      ((List.range q.last_used.length).filter
        (fun i => t - q.last_used.getD i 0 ≤ a)).map (fun i => q.prototypes.getD i [])
    ∧ (q.prune t a).usage_counts =
      ((List.range q.last_used.length).filter
        (fun i => t - q.last_used.getD i 0 ≤ a)).map (fun i => q.usage_counts.getD i 0)
    ∧ (q.prune t a).last_used =
      ((List.range q.last_used.length).filter
        (fun i => t - q.last_used.getD i 0 ≤ a)).map (fun i => q.last_used.getD i 0)
    ∧ ((List.range q.last_used.length).filter
        (fun i => t - q.last_used.getD i 0 ≤ a)).Pairwise (· < ·)
    ∧ (∀ i, i < q.last_used.length →
        (i ∈ (List.range q.last_used.length).filter
            (fun i => t - q.last_used.getD i 0 ≤ a) ↔
          t - q.last_used.getD i 0 ≤ a))
    ∧ (q.prune t a).vigilance = q.vigilance := by
  set keep := (List.range q.last_used.length).filter
    (fun i => t - q.last_used.getD i 0 ≤ a) with hkeep
  have hkeeplen : keep.length ≤ q.last_used.length := by
    simpa [hkeep] using List.length_filter_le _ (List.range q.last_used.length)
  have hmain : (q.prune t a).prototypes = keep.map (fun i => q.prototypes.getD i [])
      ∧ (q.prune t a).usage_counts = keep.map (fun i => q.usage_counts.getD i 0)
      ∧ (q.prune t a).last_used = keep.map (fun i => q.last_used.getD i 0)
      ∧ (q.prune t a).vigilance = q.vigilance := by
    by_cases hrem : 0 < q.last_used.length - keep.length
    · simp only [Bridge.DynamicEventMap.prune, ← hkeep]
      rw [if_pos hrem]
      exact ⟨rfl, rfl, rfl, rfl⟩
    · have hlen : keep.length = q.last_used.length := le_antisymm hkeeplen (by omega)
      have hall : keep = List.range q.last_used.length := by
        rw [hkeep]
        apply List.filter_eq_self.mpr
        apply List.filter_length_eq_length.mp
        simpa [hkeep, List.length_range] using hlen
      have hq : q.prune t a = q := by
        simp only [Bridge.DynamicEventMap.prune, ← hkeep]
        rw [if_neg hrem]
      rw [hq, hall]
      refine ⟨?_, ?_, ?_, rfl⟩
      · rw [← h1]; exact (Bridge.map_getD_range q.prototypes []).symm
      · rw [← h2]; exact (Bridge.map_getD_range q.usage_counts 0).symm
      · exact (Bridge.map_getD_range q.last_used 0).symm
  refine ⟨hmain.1, hmain.2.1, hmain.2.2.1, ?_, ?_, hmain.2.2.2⟩
  · exact List.Pairwise.filter _ (List.pairwise_lt_range _)
  · intro i hi
    simp [hkeep, List.mem_filter, List.mem_range, hi]

/-- Witness for C2: a quantizer whose first prototype is stale
(`100 - 0 > 10`) and second is fresh (`100 - 99 ≤ 10`); pruning keeps only
index 1, compacted to index 0 with its data intact. -/
theorem prune_spec_witness :
    ((⟨[[0, 0], [9, 9]], 1 / 2, [3, 4], [0, 99]⟩ :
        Bridge.DynamicEventMap).prototypes.length =
      (⟨[[0, 0], [9, 9]], 1 / 2, [3, 4], [0, 99]⟩ :
        Bridge.DynamicEventMap).last_used.length)
    ∧ (⟨[[0, 0], [9, 9]], 1 / 2, [3, 4], [0, 99]⟩ :
        Bridge.DynamicEventMap).prune 100 10 =
      ⟨[[9, 9]], 1 / 2, [4], [99]⟩ := by
  refine ⟨rfl, ?_⟩
  have h := prune_spec (⟨[[0, 0], [9, 9]], 1 / 2, [3, 4], [0, 99]⟩ :
    Bridge.DynamicEventMap) 100 10 rfl rfl
  obtain ⟨hp, hu, hl, _, _, hv⟩ := h
  have hkeep : (List.range
      ((⟨[[0, 0], [9, 9]], 1 / 2, [3, 4], [0, 99]⟩ :
        Bridge.DynamicEventMap)).last_used.length).filter
      (fun i => (100 : ℤ) -
        ((⟨[[0, 0], [9, 9]], 1 / 2, [3, 4], [0, 99]⟩ :
          Bridge.DynamicEventMap)).last_used.getD i 0 ≤ 10) = [1] := by
    decide
  rw [hkeep] at hp hu hl
  cases hq : ((⟨[[0, 0], [9, 9]], 1 / 2, [3, 4], [0, 99]⟩ :
      Bridge.DynamicEventMap).prune 100 10)
  rw [hq] at hp hu hl hv
  simp only at hp hu hl hv
  simp [hp, hu, hl, hv]

/-- C5: for `error > 0`, `adjust_vigilance` sets the vigilance to
`max(0.01, vigilance - 0.05 * error)`; consequently (on the reachable
states, whose vigilance is at least the floor `0.01`) the vigilance never
increases, stays at or above the floor, and strictly decreases whenever it
is strictly above the floor; for `error ≤ 0` the call is a no-op. -/
theorem adjust_vigilance_spec (q : Bridge.DynamicEventMap) (e : ℚ) :
    (0 < e →
      ((q.adjust_vigilance e).vigilance =
          max (1 / 100) (q.vigilance - (1 / 20) * e)
        ∧ (1 / 100 ≤ q.vigilance →
            (q.adjust_vigilance e).vigilance ≤ q.vigilance
            ∧ 1 / 100 ≤ (q.adjust_vigilance e).vigilance)
        ∧ (1 / 100 < q.vigilance →
            (q.adjust_vigilance e).vigilance < q.vigilance)))
    ∧ (e ≤ 0 → q.adjust_vigilance e = q) := by
  constructor
  · intro he
    have heq : (q.adjust_vigilance e).vigilance =
        max (1 / 100) (q.vigilance - (1 / 20) * e) := by
      simp only [Bridge.DynamicEventMap.adjust_vigilance, if_pos he]
    refine ⟨heq, fun hfl => ⟨?_, ?_⟩, fun hfl => ?_⟩
    · rw [heq]
      exact max_le hfl (by nlinarith)
    · rw [heq]; exact le_max_left _ _
    · rw [heq]
      exact max_lt hfl (by nlinarith)
  · intro he
    simp only [Bridge.DynamicEventMap.adjust_vigilance, if_neg (not_lt.mpr he)]

/-- Witness for C5: from the fresh quantizer (vigilance `0.5`),
`adjust_vigilance 1` lowers the vigilance to `0.45 = max(0.01, 0.5 - 0.05)`
and `adjust_vigilance 0` changes nothing. -/
theorem adjust_vigilance_spec_witness :
    ((0 : ℚ) < 1
      ∧ (Bridge.DynamicEventMap.init.adjust_vigilance 1).vigilance = 9 / 20
      ∧ (Bridge.DynamicEventMap.init.adjust_vigilance 1).vigilance <
          Bridge.DynamicEventMap.init.vigilance)
    ∧ ((0 : ℚ) ≤ 0
      ∧ Bridge.DynamicEventMap.init.adjust_vigilance 0 =
          Bridge.DynamicEventMap.init) := by
  have h := adjust_vigilance_spec Bridge.DynamicEventMap.init 1
  have h1 := (h.1 (by norm_num)).1
  have h3 := ((h.1 (by norm_num)).2.2 (by norm_num [Bridge.DynamicEventMap.init]))
  have h2 := (adjust_vigilance_spec Bridge.DynamicEventMap.init 0).2 (le_refl 0)
  refine ⟨⟨by norm_num, ?_, h3⟩, le_refl 0, h2⟩
  rw [h1]
  norm_num [Bridge.DynamicEventMap.init]

/-- C6: saving a quantizer and loading the produced record restores a
quantizer with identical prototype vectors, vigilance, usage counts and
last-active ticks (structural equality of the whole state), and therefore
identical symbols on any identical future sequence of `quantize` inputs. -/
theorem save_load_roundtrip (q q' : Bridge.DynamicEventMap) :
    q'.load (some q.save) = Except.ok q
    ∧ q'.loadData q.save = q
    ∧ ∀ (inputs : List (List ℚ × ℤ)),
        Bridge.runQuantize (q'.loadData q.save) inputs =
          Bridge.runQuantize q inputs :=
  ⟨rfl, rfl, fun _ => rfl⟩

/-- C9 counterexample: `load` on a missing file (`none`) returns normally —
an `Except.ok` carrying the unchanged quantizer, not a failure — so the
missing file is not surfaced to the caller. -/
theorem load_missing_file_counterexample :
    Bridge.DynamicEventMap.init.load none =
      Except.ok Bridge.DynamicEventMap.init
    ∧ (Bridge.DynamicEventMap.init.load none).isOk = true :=
  ⟨rfl, rfl⟩

/-- C9 (amended): `load` called with a filename that does not exist is not
surfaced to the caller as a failure: the method prints a warning and returns
normally with no error indication, and the quantizer's state is unchanged. -/
theorem load_missing_file_spec (q : Bridge.DynamicEventMap) :
    q.load none = Except.ok q :=
  rfl

/-- C10: the three parallel lists `prototypes`, `usage_counts`, `last_used`
are all empty after construction and their length equality is preserved by
`quantize`, `prune`, `adjust_vigilance`, and a save-then-load round trip. -/
theorem parallel_lists_invariant :
    (Bridge.DynamicEventMap.init.prototypes = []
      ∧ Bridge.DynamicEventMap.init.usage_counts = []
      ∧ Bridge.DynamicEventMap.init.last_used = []
      ∧ Bridge.DynamicEventMap.init.WF)
    ∧ (∀ (q : Bridge.DynamicEventMap) (v : List ℚ) (t : ℤ),
        q.WF → (q.quantize v t).1.WF)
    ∧ (∀ (q : Bridge.DynamicEventMap) (t a : ℤ), q.WF → (q.prune t a).WF)
    ∧ (∀ (q : Bridge.DynamicEventMap) (e : ℚ), q.WF → (q.adjust_vigilance e).WF)
    ∧ (∀ (q q' : Bridge.DynamicEventMap), q.WF → (q'.loadData q.save).WF) := by
  refine ⟨⟨rfl, rfl, rfl, rfl, rfl⟩, ?_, ?_, ?_, ?_⟩
  · intro q v t hwf
    obtain ⟨hw1, hw2⟩ := hwf
    simp only [Bridge.DynamicEventMap.quantize, Bridge.DynamicEventMap.addPrototype]
    split
    · exact ⟨by simp [hw1], by simp [hw2]⟩
    · split
      · exact ⟨by simp [hw1], by simp [hw2]⟩
      · exact ⟨by simp [hw1], by simp [hw2]⟩
  · intro q t a hwf
    simp only [Bridge.DynamicEventMap.prune]
    split
    · exact ⟨by simp, by simp⟩
    · exact hwf
  · intro q e hwf
    simp only [Bridge.DynamicEventMap.adjust_vigilance]
    split
    · exact hwf
    · exact hwf
  · intro q q' hwf
    exact ⟨hwf.1, hwf.2⟩

/-- Witness for C10: the invariant propagated through a concrete `quantize`,
`prune` and `adjust_vigilance` call starting from the fresh quantizer. -/
theorem parallel_lists_invariant_witness :
    Bridge.DynamicEventMap.init.WF
    ∧ (Bridge.DynamicEventMap.init.quantize [1, 0] 0).1.WF
    ∧ ((⟨[[0, 0], [9, 9]], 1 / 2, [3, 4], [0, 99]⟩ :
        Bridge.DynamicEventMap).prune 100 10).WF
    ∧ (Bridge.DynamicEventMap.init.adjust_vigilance 1).WF :=
  ⟨parallel_lists_invariant.1.2.2.2,
   parallel_lists_invariant.2.1 Bridge.DynamicEventMap.init [1, 0] 0 ⟨rfl, rfl⟩,
   parallel_lists_invariant.2.2.1 _ 100 10 ⟨rfl, rfl⟩,
   parallel_lists_invariant.2.2.2.1 Bridge.DynamicEventMap.init 1 ⟨rfl, rfl⟩⟩

/-- C8: `map_action` returns the configured id, with the sentinel `-1`
exactly when the stripped name is absent from the table; the reverse table
is built first-insertion-wins, so id 2 resolves to `"^forward"` (not
`"^move"`) and id 5 to `"^toggle"` (not `"^activate"`), every configured id
resolves to its first-inserted name, and an unmapped id falls back to
`"^wait"`.  (Both tables are plain constants of the embedding — built once,
never mutated, matching the read-only-after-construction claim.) -/
theorem action_mapper_spec :
    (∀ name : String,
      (ActionMapper.map_action name = -1 ↔
        ∀ p ∈ ActionMapper.mapping, p.1 ≠ Bridge.pyStrip name))
    ∧ (∀ (name : String) (id : ℤ),
        (Bridge.pyStrip name, id) ∈ ActionMapper.mapping →
          ActionMapper.map_action name = id)
    ∧ ActionMapper.id_to_op =
        [(0, "^left"), (1, "^right"), (2, "^forward"), (3, "^pick"),
         (4, "^drop"), (5, "^toggle"), (6, "^say"), (7, "^wait")]
    ∧ ActionMapper.get_op_for_id 2 = "^forward"
    ∧ ActionMapper.get_op_for_id 5 = "^toggle"
    ∧ (∀ id : ℤ, (∀ p ∈ ActionMapper.id_to_op, p.1 ≠ id) →
        ActionMapper.get_op_for_id id = "^wait") := by
  refine ⟨?_, ?_, by decide, by decide, by decide, ?_⟩
  · intro name
    constructor
    · intro hval p hp hname
      have hfind : (ActionMapper.mapping.find?
          (fun p => p.1 = Bridge.pyStrip name)).isSome := by
        rw [List.find?_isSome]
        exact ⟨p, hp, by simpa using hname⟩
      obtain ⟨r, hr⟩ := Option.isSome_iff_exists.mp hfind
      have hrm : r ∈ ActionMapper.mapping := List.mem_of_find?_eq_some hr
      have hrv : ActionMapper.map_action name = r.2 := by
        simp [ActionMapper.map_action, hr]
      rw [hrv] at hval
      have hno : ∀ p ∈ ActionMapper.mapping, p.2 ≠ -1 := by decide
      exact hno r hrm hval
    · intro habs
      have hfind : ActionMapper.mapping.find? (fun p => p.1 = Bridge.pyStrip name) = none := by
        rw [List.find?_eq_none]
        intro p hp
        simpa using habs p hp
      simp [ActionMapper.map_action, hfind]
  · intro name id hmem
    simp only [ActionMapper.mapping, List.mem_cons, Prod.mk.injEq,
      List.not_mem_nil, or_false] at hmem
    rcases hmem with ⟨h1, h2⟩ | ⟨h1, h2⟩ | ⟨h1, h2⟩ | ⟨h1, h2⟩ | ⟨h1, h2⟩ |
      ⟨h1, h2⟩ | ⟨h1, h2⟩ | ⟨h1, h2⟩ | ⟨h1, h2⟩ | ⟨h1, h2⟩ <;>
      subst h2 <;> simp [ActionMapper.map_action, ActionMapper.mapping, h1]
  · intro id habs
    have hfind : ActionMapper.id_to_op.find? (fun p => p.1 = id) = none := by
      rw [List.find?_eq_none]
      intro p hp
      simpa using habs p hp
    simp [ActionMapper.get_op_for_id, hfind]

/-- Witness for C8: a present name (after stripping), an absent name, the
shared ids 2 and 5, and the unmapped id 9. -/
theorem action_mapper_spec_witness :
    ActionMapper.map_action " ^move " = 2
    ∧ ActionMapper.map_action "^fly" = -1
    ∧ ActionMapper.get_op_for_id 2 = "^forward"
    ∧ ActionMapper.get_op_for_id 5 = "^toggle"
    ∧ ActionMapper.get_op_for_id 9 = "^wait" := by
  refine ⟨?_, ?_, action_mapper_spec.2.2.2.1, action_mapper_spec.2.2.2.2.1, ?_⟩
  · exact action_mapper_spec.2.1 " ^move " 2 (by decide)
  · exact (action_mapper_spec.1 "^fly").mpr (by decide)
  · exact action_mapper_spec.2.2.2.2.2 9 (by decide)

/-- C3: in both dialects, each of the four getters returns the current
value of its signal and resets exactly that signal to its empty default
(`none` action, `0.0` error, empty queues) — so an immediately repeated
call returns the empty default — and leaves the other three signals
unchanged. -/
theorem getters_reset_spec :
    (∀ s : Bridge.OnaState,
      s.get_action.1 = s.last_action
      ∧ s.get_action.2.last_action = none
      ∧ s.get_action.2.get_action.1 = none
      ∧ s.get_action.2.last_error = s.last_error
      ∧ s.get_action.2.last_derived = s.last_derived
      ∧ s.get_action.2.anticipations = s.anticipations)
    ∧ (∀ s : Bridge.OnaState,
      s.get_prediction_error.1 = s.last_error
      ∧ s.get_prediction_error.2.last_error = 0
      ∧ s.get_prediction_error.2.get_prediction_error.1 = 0
      ∧ s.get_prediction_error.2.last_action = s.last_action
      ∧ s.get_prediction_error.2.last_derived = s.last_derived
      ∧ s.get_prediction_error.2.anticipations = s.anticipations)
    ∧ (∀ s : Bridge.OnaState,
      s.get_derived.1 = s.last_derived
      ∧ s.get_derived.2.last_derived = []
      ∧ s.get_derived.2.get_derived.1 = []
      ∧ s.get_derived.2.last_action = s.last_action
      ∧ s.get_derived.2.last_error = s.last_error
      ∧ s.get_derived.2.anticipations = s.anticipations)
    ∧ (∀ s : Bridge.OnaState,
      s.get_anticipations.1 = s.anticipations
      ∧ s.get_anticipations.2.anticipations = []
      ∧ s.get_anticipations.2.get_anticipations.1 = []
      ∧ s.get_anticipations.2.last_action = s.last_action
      ∧ s.get_anticipations.2.last_error = s.last_error
      ∧ s.get_anticipations.2.last_derived = s.last_derived)
    ∧ (∀ s : Bridge.OpenNarsState,
      s.get_action.1 = s.last_action
      ∧ s.get_action.2.last_action = none
      ∧ s.get_action.2.get_action.1 = none
      ∧ s.get_action.2.last_error = s.last_error
      ∧ s.get_action.2.last_derived = s.last_derived
      ∧ s.get_action.2.anticipations = s.anticipations)
    ∧ (∀ s : Bridge.OpenNarsState,
      s.get_prediction_error.1 = s.last_error
      ∧ s.get_prediction_error.2.last_error = 0
      ∧ s.get_prediction_error.2.get_prediction_error.1 = 0
      ∧ s.get_prediction_error.2.last_action = s.last_action
      ∧ s.get_prediction_error.2.last_derived = s.last_derived
      ∧ s.get_prediction_error.2.anticipations = s.anticipations)
    ∧ (∀ s : Bridge.OpenNarsState,
      s.get_derived.1 = s.last_derived
      ∧ s.get_derived.2.last_derived = []
      ∧ s.get_derived.2.get_derived.1 = []
      ∧ s.get_derived.2.last_action = s.last_action
      ∧ s.get_derived.2.last_error = s.last_error
      ∧ s.get_derived.2.anticipations = s.anticipations)
    ∧ (∀ s : Bridge.OpenNarsState,
      s.get_anticipations.1 = s.anticipations
      ∧ s.get_anticipations.2.anticipations = []
      ∧ s.get_anticipations.2.get_anticipations.1 = []
      ∧ s.get_anticipations.2.last_action = s.last_action
      ∧ s.get_anticipations.2.last_error = s.last_error
      ∧ s.get_anticipations.2.last_derived = s.last_derived) :=
  ⟨fun _ => ⟨rfl, rfl, rfl, rfl, rfl, rfl⟩,
   fun _ => ⟨rfl, rfl, rfl, rfl, rfl, rfl⟩,
   fun _ => ⟨rfl, rfl, rfl, rfl, rfl, rfl⟩,
   fun _ => ⟨rfl, rfl, rfl, rfl, rfl, rfl⟩,
   fun _ => ⟨rfl, rfl, rfl, rfl, rfl, rfl⟩,
   fun _ => ⟨rfl, rfl, rfl, rfl, rfl, rfl⟩,
   fun _ => ⟨rfl, rfl, rfl, rfl, rfl, rfl⟩,
   fun _ => ⟨rfl, rfl, rfl, rfl, rfl, rfl⟩⟩

/-- C7: a constructor that fails to launch its process (nonexistent
executable/jar — and, for the OpenNARS dialect, any other launch
exception) leaves a handle that is not running with no process, rather
than raising; on such a handle every operation returns without effect:
`send_input`/`send_action` write nothing and leave the state unchanged,
`stop` succeeds (the flag stays cleared), and the getters return the empty
defaults. -/
theorem degraded_handle_spec :
    ((Bridge.OnaState.init LaunchResult.fileNotFound).running = false
      ∧ (Bridge.OnaState.init LaunchResult.fileNotFound).process = false)
    ∧ (∀ (s : Bridge.OnaState) (n : String) (ok : Bool),
        s.running = false → s.send_input n ok = (s, none))
    ∧ (∀ (s : Bridge.OnaState) (i : ℤ) (ok : Bool),
        s.running = false → s.send_action i ok = (s, none))
    ∧ (∀ s : Bridge.OnaState, s.stop.running = false)
    ∧ ((Bridge.OnaState.init LaunchResult.fileNotFound).get_action.1 = none
      ∧ (Bridge.OnaState.init LaunchResult.fileNotFound).get_prediction_error.1 = 0
      ∧ (Bridge.OnaState.init LaunchResult.fileNotFound).get_derived.1 = []
      ∧ (Bridge.OnaState.init LaunchResult.fileNotFound).get_anticipations.1 = [])
    ∧ ((Bridge.OpenNarsState.init OpenLaunch.fileNotFound).running = false
      ∧ (Bridge.OpenNarsState.init OpenLaunch.fileNotFound).process = false
      ∧ (Bridge.OpenNarsState.init OpenLaunch.otherError).running = false
      ∧ (Bridge.OpenNarsState.init OpenLaunch.otherError).process = false)
    ∧ (∀ (s : Bridge.OpenNarsState) (n : String) (ok : Bool),
        s.running = false → s.send_input n ok = (s, none))
    ∧ (∀ (s : Bridge.OpenNarsState) (i : ℤ) (ok : Bool),
        s.running = false → s.send_action i ok = (s, none))
    ∧ (∀ s : Bridge.OpenNarsState, s.stop.running = false)
    ∧ ((Bridge.OpenNarsState.init OpenLaunch.fileNotFound).get_action.1 = none
      ∧ (Bridge.OpenNarsState.init OpenLaunch.fileNotFound).get_prediction_error.1 = 0
      ∧ (Bridge.OpenNarsState.init OpenLaunch.fileNotFound).get_derived.1 = []
      ∧ (Bridge.OpenNarsState.init OpenLaunch.fileNotFound).get_anticipations.1 = []) := by
  refine ⟨⟨rfl, rfl⟩, ?_, ?_, fun _ => rfl, ⟨rfl, rfl, rfl, rfl⟩,
    ⟨by decide, by decide, by decide, by decide⟩, ?_, ?_, fun _ => rfl,
    ⟨rfl, rfl, rfl, rfl⟩⟩
  · intro s n ok h
    simp [Bridge.OnaState.send_input, h]
  · intro s i ok h
    simp [Bridge.OnaState.send_action, Bridge.OnaState.send_input, h]
  · intro s n ok h
    simp [Bridge.OpenNarsState.send_input, h]
  · intro s i ok h
    simp [Bridge.OpenNarsState.send_action, Bridge.OpenNarsState.send_input, h]

/-- Witness for C7: the concrete degraded handles obtained from failed
launches, with concrete no-op sends. -/
theorem degraded_handle_spec_witness :
    (Bridge.OnaState.init LaunchResult.fileNotFound).send_input
        "<tick>. :|:" true =
      (Bridge.OnaState.init LaunchResult.fileNotFound, none)
    ∧ (Bridge.OnaState.init LaunchResult.fileNotFound).send_action 2 true =
      (Bridge.OnaState.init LaunchResult.fileNotFound, none)
    ∧ (Bridge.OpenNarsState.init OpenLaunch.fileNotFound).send_input
        "<tick>. :|:" true =
      (Bridge.OpenNarsState.init OpenLaunch.fileNotFound, none)
    ∧ (Bridge.OpenNarsState.init OpenLaunch.otherError).send_action 2 true =
      (Bridge.OpenNarsState.init OpenLaunch.otherError, none) :=
  ⟨degraded_handle_spec.2.1 _ "<tick>. :|:" true rfl,
   degraded_handle_spec.2.2.1 _ 2 true rfl,
   degraded_handle_spec.2.2.2.2.2.2.1 _ "<tick>. :|:" true (by decide),
   degraded_handle_spec.2.2.2.2.2.2.2.1 _ 2 true (by decide)⟩

theorem errStep_trans {f a b c : ℚ} (h1 : b = a ∨ b = max a f)
    (h2 : c = b ∨ c = max b f) : c = a ∨ c = max a f := by
  rcases h1 with rfl | rfl
  · exact h2
  · rcases h2 with rfl | rfl
    · exact Or.inr rfl
    · right
      rw [max_assoc, max_self]

theorem onaExecutedWith_err (s : OnaState) (line : String) :
    (onaExecutedWith s line).last_error = s.last_error := by
  unfold onaExecutedWith
  repeat' (first | split | dsimp only)

theorem onaSelected_err (s : OnaState) (line : String) :
    (onaSelected s line).last_error = s.last_error := by
  unfold onaSelected
  repeat' (first | split | dsimp only)

theorem onaTail_err (s : OnaState) (line : String) :
    (onaTail s line).last_error = s.last_error ∨
      (onaTail s line).last_error = max s.last_error (3 / 10) := by
  unfold onaTail
  repeat' (first | split | dsimp only)
  all_goals first
    | exact Or.inl rfl
    | exact Or.inr rfl

theorem onaOut_err (s : OnaState) (line : String) :
    (onaOut s line).last_error = s.last_error ∨
      (onaOut s line).last_error = max s.last_error (3 / 10) := by
  unfold onaOut
  repeat' (first | split | dsimp only)
  all_goals first
    | exact Or.inl rfl
    | exact onaTail_err _ _
    | exact errStep_trans (Or.inr rfl) (onaTail_err _ _)

theorem onaProcessLine_err (s : OnaState) (line : String) :
    (onaProcessLine s line).last_error = s.last_error ∨
      (onaProcessLine s line).last_error = max s.last_error (3 / 10) := by
  unfold onaProcessLine
  dsimp only
  split
  · exact Or.inl rfl
  · have h := onaOut_err (onaSelected (onaExecutedWith s (pyStrip line)) (pyStrip line))
      (pyStrip line)
    rwa [onaSelected_err, onaExecutedWith_err] at h

theorem onaSendInput_err (s : OnaState) (n : String) (ok : Bool) :
    (s.send_input n ok).1.last_error = s.last_error := by
  unfold OnaState.send_input
  repeat' (first | split | dsimp only)

theorem openNarsDerived_err (s : OpenNarsState) (line : String) :
    (openNarsDerived s line).last_error = s.last_error := by
  unfold openNarsDerived
  repeat' (first | split | dsimp only)

theorem openNarsExe_err (s : OpenNarsState) (line : String) :
    (openNarsExe s line).last_error = s.last_error := by
  unfold openNarsExe
  repeat' (first | split | dsimp only)

theorem openNarsProcessLine_err (s : OpenNarsState) (line : String) :
    (openNarsProcessLine s line).last_error = s.last_error ∨
      (openNarsProcessLine s line).last_error = 1 / 2 := by
  unfold openNarsProcessLine
  dsimp only
  repeat' (first | split | dsimp only)
  all_goals first
    | exact Or.inl (by rw [openNarsExe_err, openNarsDerived_err])
    | exact Or.inr (by rfl)
    | exact Or.inl rfl

theorem openNarsSendInput_err (s : OpenNarsState) (n : String) (ok : Bool) :
    (s.send_input n ok).1.last_error = s.last_error ∨
      (s.send_input n ok).1.last_error = 1 / 2 := by
  unfold OpenNarsState.send_input
  repeat' (first | split | dsimp only)
  all_goals first
    | exact Or.inl rfl
    | exact Or.inr rfl

/-- C4: in both dialects the prediction-error accumulator is reset to `0.0`
by `get_prediction_error` and by no other operation; every other operation
either leaves it unchanged or raises it to the dialect's policy floor by a
`max` (ONA: `max(error, 0.3)`; OpenNARS: the assignment `0.5`, which on the
reachable states — where the accumulator never exceeds `0.5`, an invariant
every operation preserves from the initial `0.0` — coincides with
`max(error, 0.5)`), so between two resets it never decreases and several
surprises in one window combine by maximum rather than by sum. -/
theorem prediction_error_monotone_spec :
    (∀ (s : Bridge.OnaState) (op : Bridge.OnaOp),
      (s.step op).last_error = s.last_error
      ∨ (s.step op).last_error = max s.last_error (3 / 10)
      ∨ op = Bridge.OnaOp.getPredictionError)
    ∧ (∀ (s : Bridge.OnaState) (op : Bridge.OnaOp),
      op ≠ Bridge.OnaOp.getPredictionError →
        s.last_error ≤ (s.step op).last_error)
    ∧ (∀ (s : Bridge.OnaState) (op1 op2 : Bridge.OnaOp),
      op1 ≠ Bridge.OnaOp.getPredictionError →
      op2 ≠ Bridge.OnaOp.getPredictionError →
        ((s.step op1).step op2).last_error ≤ max s.last_error (3 / 10))
    ∧ (∀ s : Bridge.OnaState,
        (s.step Bridge.OnaOp.getPredictionError).last_error = 0)
    ∧ (∀ r, (Bridge.OnaState.init r).last_error = 0)
    ∧ (∀ (s : Bridge.OpenNarsState) (op : Bridge.OpenNarsOp),
      (s.step op).last_error = s.last_error ∨ (s.step op).last_error = 1 / 2
      ∨ op = Bridge.OpenNarsOp.getPredictionError)
    ∧ (∀ (s : Bridge.OpenNarsState) (op : Bridge.OpenNarsOp),
      s.last_error ≤ 1 / 2 → op ≠ Bridge.OpenNarsOp.getPredictionError →
        s.last_error ≤ (s.step op).last_error)
    ∧ (∀ (s : Bridge.OpenNarsState) (op : Bridge.OpenNarsOp),
      s.last_error ≤ 1 / 2 → (s.step op).last_error ≤ 1 / 2)
    ∧ (∀ s : Bridge.OpenNarsState,
        (s.step Bridge.OpenNarsOp.getPredictionError).last_error = 0)
    ∧ (∀ r, (Bridge.OpenNarsState.init r).last_error = 0) := by
  have hOna : ∀ (s : Bridge.OnaState) (op : Bridge.OnaOp),
      (s.step op).last_error = s.last_error
      ∨ (s.step op).last_error = max s.last_error (3 / 10)
      ∨ op = Bridge.OnaOp.getPredictionError := by
    intro s op
    cases op with
    | procLine line => exact (Bridge.onaProcessLine_err s line).imp id Or.inl
    | sendInput n ok => exact Or.inl (Bridge.onaSendInput_err s n ok)
    | sendAction i ok => exact Or.inl (Bridge.onaSendInput_err s _ ok)
    | getAction => exact Or.inl rfl
    | getDerived => exact Or.inl rfl
    | getAnticipations => exact Or.inl rfl
    | getPredictionError => exact Or.inr (Or.inr rfl)
    | stop => exact Or.inl rfl
  have hOnaMono : ∀ (s : Bridge.OnaState) (op : Bridge.OnaOp),
      op ≠ Bridge.OnaOp.getPredictionError →
        s.last_error ≤ (s.step op).last_error := by
    intro s op hop
    rcases hOna s op with h | h | h
    · exact le_of_eq h.symm
    · rw [h]; exact le_max_left _ _
    · exact absurd h hop
  have hOnaBound : ∀ (s : Bridge.OnaState) (op : Bridge.OnaOp),
      op ≠ Bridge.OnaOp.getPredictionError →
        (s.step op).last_error ≤ max s.last_error (3 / 10) := by
    intro s op hop
    rcases hOna s op with h | h | h
    · rw [h]; exact le_max_left _ _
    · exact le_of_eq h
    · exact absurd h hop
  have hOpen : ∀ (s : Bridge.OpenNarsState) (op : Bridge.OpenNarsOp),
      (s.step op).last_error = s.last_error ∨ (s.step op).last_error = 1 / 2
      ∨ op = Bridge.OpenNarsOp.getPredictionError := by
    intro s op
    cases op with
    | procLine line => exact (Bridge.openNarsProcessLine_err s line).imp id Or.inl
    | sendInput n ok => exact (Bridge.openNarsSendInput_err s n ok).imp id Or.inl
    | sendAction i ok => exact (Bridge.openNarsSendInput_err s _ ok).imp id Or.inl
    | getAction => exact Or.inl rfl
    | getDerived => exact Or.inl rfl
    | getAnticipations => exact Or.inl rfl
    | getPredictionError => exact Or.inr (Or.inr rfl)
    | stop => exact Or.inl rfl
  refine ⟨hOna, hOnaMono, ?_, fun _ => rfl, fun r => by cases r <;> rfl,
    hOpen, ?_, ?_, fun _ => rfl, fun r => rfl⟩
  · intro s op1 op2 h1 h2
    calc ((s.step op1).step op2).last_error
        ≤ max (s.step op1).last_error (3 / 10) := hOnaBound _ op2 h2
      _ ≤ max (max s.last_error (3 / 10)) (3 / 10) :=
          max_le_max (hOnaBound s op1 h1) (le_refl _)
      _ = max s.last_error (3 / 10) := by rw [max_assoc, max_self]
  · intro s op hinv hop
    rcases hOpen s op with h | h | h
    · exact le_of_eq h.symm
    · rw [h]; exact hinv
    · exact absurd h hop
  · intro s op hinv
    rcases hOpen s op with h | h | h
    · rw [h]; exact hinv
    · rw [h]
    · rw [h]
      show (0 : ℚ) ≤ 1 / 2
      norm_num

/-- Witness for C4 at concrete inputs: a non-reset operation from a
concrete state in each dialect, a concrete two-operation window, and the
preserved `≤ 0.5` bound for OpenNARS. -/
theorem prediction_error_monotone_spec_witness :
    ((Bridge.OnaState.init LaunchResult.ok).last_error ≤
      ((Bridge.OnaState.init LaunchResult.ok).step Bridge.OnaOp.getAction).last_error)
    ∧ (((Bridge.OnaState.init LaunchResult.ok).step
          (Bridge.OnaOp.procLine "OUT: (^left,0.9) %1.00;0.58%")).step
            (Bridge.OnaOp.procLine "OUT: (^left,0.9) %1.00;0.58%")).last_error ≤
        max (Bridge.OnaState.init LaunchResult.ok).last_error (3 / 10)
    ∧ ((Bridge.OpenNarsState.init OpenLaunch.ok).last_error ≤
        ((Bridge.OpenNarsState.init OpenLaunch.ok).step
          (Bridge.OpenNarsOp.procLine "DISCONFIRM")).last_error)
    ∧ (((Bridge.OpenNarsState.init OpenLaunch.ok).step
          (Bridge.OpenNarsOp.procLine "DISCONFIRM")).last_error ≤ 1 / 2) :=
  ⟨prediction_error_monotone_spec.2.1 _ Bridge.OnaOp.getAction (by decide),
   prediction_error_monotone_spec.2.2.1 _ _ _ (by decide) (by decide),
   prediction_error_monotone_spec.2.2.2.2.2.2.1 _ _
     (by norm_num [Bridge.OpenNarsState.init]) (by decide),
   prediction_error_monotone_spec.2.2.2.2.2.2.2.1 _ _
     (by norm_num [Bridge.OpenNarsState.init])⟩

end Bridge


